import Mathlib

/-!
Verification of the OrdiBird abuse-mitigation subsystem.

This file gives a shallow embedding of the two in-memory protection
services of the repository and proves the specified properties about
them:

* `BotBlockingService` (per-IP sliding-window rate limiting, bot
  user-agent heuristics, suspicious-header heuristics, temporary IP
  blocking with lazy expiry, and the periodic cleanup sweep);
* `RateLimitService`'s global per-minute mint limiter, together with
  the mint phase of the `POST /api/claim/token` handler that consults
  it.

JavaScript `Map`s keyed by strings are modelled as functions
`String → Option _`; `Set`s as functions `String → Bool`.  Timestamps
(`Date.now()` values, milliseconds) are modelled as `Int`.  The
JavaScript truthiness of a stored `blockedUntil` value (`null` and `0`
are both falsy) is modelled explicitly where the source relies on it.
-/

namespace OrdiBird

/-! ### Character-level helpers (JS regex/substring tests) -/

/-- Lower-case a character list (models a case-insensitive regex test:
the subject is lower-cased and compared with the lower-cased pattern). -/
def lowerChars (l : List Char) : List Char := l.map Char.toLower

/-- Does the first list start with the second one? -/
def startsWithChars : List Char → List Char → Bool
  | _, [] => true
  | [], _ :: _ => false
  | c :: cs, p :: ps => c == p && startsWithChars cs ps

/-- Substring containment on character lists; models JavaScript
`String.prototype.includes` and a regex test for a literal pattern. -/
def containsChars : List Char → List Char → Bool
  | [], pat => startsWithChars [] pat
  | c :: cs, pat => startsWithChars (c :: cs) pat || containsChars cs pat

/-- Case-insensitive containment of `pat` in `s`, the meaning of
`/pat/i.test(s)` for the literal patterns the service uses. -/
def icontains (s pat : String) : Bool :=
  containsChars (lowerChars s.toList) (lowerChars pat.toList)

/-- Math.ceil (a / b) on integers, for a positive divisor `b`
(used for the `retryAfter` seconds computations). -/
def jsCeilDiv (a b : Int) : Int := -((-a).ediv b)

/-! ### Data model of BotBlockingService (src/unnamed/part_005) -/

/-- One entry of `this.ipRequestTracker`:
`\x7b requests: [], blocked: false, blockedUntil: null \x7d` plus the
`blockReason` / `blockedAt` fields written by `blockIP`. -/
structure IPData where
  requests : List Int
  blocked : Bool
  blockedUntil : Option Int
  blockReason : Option String
  blockedAt : Option Int
deriving DecidableEq, Repr

/-- The fresh record `\x7b requests: [], blocked: false \x7d` used as a
default by `checkRateLimit`, `recordRequest` and `blockIP`. -/
def emptyIPData : IPData := ⟨[], false, none, none, none⟩

/-- The mutable state of a `BotBlockingService` instance. -/
@[ext]
structure BotState where
  ipRequestTracker : String → Option IPData
  suspiciousIPs : String → Bool
  blockedIPs : String → Bool

/-- State of a freshly constructed service: all maps and sets empty. -/
def emptyBotState : BotState := ⟨fun _ => none, fun _ => false, fun _ => false⟩

/-- The configuration fields of the service (set from environment
variables in the constructor; defaults 10 requests / 10 s window /
12 h block). -/
structure Config where
  MAX_REQUESTS_PER_WINDOW : Nat
  TIME_WINDOW_MS : Int
  BLOCK_DURATION_MS : Int
deriving DecidableEq, Repr

/-- The `ruleTriggered` field of a gate decision. -/
inductive Rule
  | IP_BLOCKED
  | BOT_USER_AGENT
  | SUSPICIOUS_HEADERS
  | RATE_LIMIT
deriving DecidableEq, Repr

/-- The `reason` message of a gate decision, one constructor per
template string in the source (interpolated values kept as data). -/
inductive GateReason
  | ipBlocked
  | botUserAgent
  | suspicious (detail : String)
  | rateLimited (maxRequests : Nat) (windowMs : Int)
deriving DecidableEq, Repr

/-- The object returned by `checkRequest`. -/
structure GateDecision where
  blocked : Bool
  reason : Option GateReason
  retryAfter : Int
  ruleTriggered : Option Rule
deriving DecidableEq, Repr

/-- Request headers: a JS object, i.e. a finite map from header names
to string values (keys are case-sensitive, as in the source's mixed
`accept` / `Accept` lookups). -/
abbrev Headers := List (String × String)

/-- JS-truthy property read `headers[k]`: absent keys and empty-string
values are both falsy. -/
def truthyGet (headers : Headers) (k : String) : Option String :=
  match headers.lookup k with
  | some v => if v = "" then none else some v
  | none => none

/-- JS `a || b` on truthy-coalesced string reads. -/
def jsOr (a b : Option String) : Option String :=
  match a with
  | some v => some v
  | none => b

/-! ### Operations of BotBlockingService -/

/-- isIPBlocked (part_005 lines 110-127): returns whether the IP is
currently blocked; lazily unblocks an expired block as a side effect.
The source's expiry guard is `ipData.blockedUntil && now >=
ipData.blockedUntil`, so a stored `blockedUntil` of `0` is falsy and
never expires; this truthiness is modelled by the `bu ≠ 0` conjunct. -/
def isIPBlocked (s : BotState) (clientIP : String) (now : Int) : Bool × BotState :=
  match s.ipRequestTracker clientIP with
  | none => (false, s)
  | some ipData =>
    if ipData.blocked = false then (false, s)
    else
      match ipData.blockedUntil with
      | some bu =>
        if bu ≠ 0 ∧ bu ≤ now then
          (false,
            { s with
              ipRequestTracker := fun x =>
                if x = clientIP then
                  some { ipData with blocked := false, blockedUntil := none }
                else s.ipRequestTracker x,
              blockedIPs := fun x => if x = clientIP then false else s.blockedIPs x })
        else (true, s)
      | none => (true, s)

/-- The bot user-agent patterns (part_005 lines 15-26), each a literal
case-insensitive regex, i.e. a case-insensitive substring test. -/
def BOT_USER_AGENTS : List String :=
  ["bot", "crawler", "spider", "scraper", "curl", "wget",
   "python-requests", "node-fetch", "axios", "postman"]

/-- isBotUserAgent (part_005 lines 132-138): empty / all-whitespace
user agents are bots, otherwise any pattern match makes it a bot. -/
def isBotUserAgent (userAgent : String) : Bool :=
  if userAgent.toList.all Char.isWhitespace then true
  else BOT_USER_AGENTS.any fun pattern => icontains userAgent pattern

/-- Result of `checkSuspiciousHeaders`. -/
structure SuspiciousResult where
  suspicious : Bool
  reason : Option String
deriving DecidableEq, Repr

/-- checkSuspiciousHeaders (part_005 lines 143-169). -/
def checkSuspiciousHeaders (headers : Headers) : SuspiciousResult :=
  let hasAccept := jsOr (truthyGet headers "accept") (truthyGet headers "Accept")
  let hasAcceptLanguage :=
    jsOr (truthyGet headers "accept-language") (truthyGet headers "Accept-Language")
  let hasAcceptEncoding :=
    jsOr (truthyGet headers "accept-encoding") (truthyGet headers "Accept-Encoding")
  if hasAccept = none ∨ hasAcceptLanguage = none ∨ hasAcceptEncoding = none then
    ⟨true, some "Missing common browser headers"⟩
  else
    let userAgent := (jsOr (truthyGet headers "user-agent") (truthyGet headers "User-Agent")).getD ""
    let referer := (jsOr (truthyGet headers "referer") (truthyGet headers "Referer")).getD ""
    if containsChars userAgent.toList "Mozilla".toList ∧ referer = "" ∧ hasAccept = some "*/*" then
      ⟨true, some "Suspicious header combination"⟩
    else ⟨false, none⟩

/-- Result of `checkRateLimit`. -/
structure RateLimitResult where
  exceeded : Bool
  requestCount : Nat
deriving DecidableEq, Repr

/-- checkRateLimit (part_005 lines 174-189): count the stored
timestamps still inside the trailing window and compare with the
maximum using greater-or-equal. -/
def checkRateLimit (cfg : Config) (s : BotState) (clientIP : String) (now : Int) :
    RateLimitResult :=
  let ipData := (s.ipRequestTracker clientIP).getD emptyIPData
  let recentRequests := ipData.requests.filter fun ts => decide (now - ts ≤ cfg.TIME_WINDOW_MS)
  if cfg.MAX_REQUESTS_PER_WINDOW ≤ recentRequests.length then
    ⟨true, recentRequests.length⟩
  else ⟨false, recentRequests.length⟩

/-- recordRequest (part_005 lines 194-205): append the timestamp,
then prune entries at or before `timestamp - 2 × window`. -/
def recordRequest (cfg : Config) (s : BotState) (clientIP : String) (timestamp : Int) :
    BotState :=
  let ipData := (s.ipRequestTracker clientIP).getD emptyIPData
  let cutoff := timestamp - cfg.TIME_WINDOW_MS * 2
  let pruned := (ipData.requests ++ [timestamp]).filter fun ts => decide (cutoff < ts)
  { s with
    ipRequestTracker := fun x =>
      if x = clientIP then some { ipData with requests := pruned }
      else s.ipRequestTracker x }

/-- blockIP (part_005 lines 210-222); `blockedAt` is the clock value
at the moment of blocking. -/
def blockIP (s : BotState) (clientIP : String) (blockedUntil : Int) (reason : String)
    (now : Int) : BotState :=
  let ipData := (s.ipRequestTracker clientIP).getD emptyIPData
  let newData : IPData :=
    { ipData with
      blocked := true, blockedUntil := some blockedUntil,
      blockReason := some reason, blockedAt := some now }
  { s with
    ipRequestTracker := fun x =>
      if x = clientIP then some newData else s.ipRequestTracker x,
    blockedIPs := fun x => if x = clientIP then true else s.blockedIPs x }

/-- flagSuspiciousIP (part_005 lines 227-230); the reason is only
logged. -/
def flagSuspiciousIP (s : BotState) (clientIP : String) (_reason : String) : BotState :=
  { s with suspiciousIPs := fun x => if x = clientIP then true else s.suspiciousIPs x }

/-- unblockIP (part_005 lines 235-249): clear the block fields if a
record exists, remove the IP from both sets, and return true. -/
def unblockIP (s : BotState) (clientIP : String) : BotState × Bool :=
  let s1 :=
    match s.ipRequestTracker clientIP with
    | some ipData =>
      { s with
        ipRequestTracker := fun x =>
          if x = clientIP then
            some { ipData with
              blocked := false, blockedUntil := none,
              blockReason := none, blockedAt := none }
          else s.ipRequestTracker x }
    | none => s
  ({ s1 with
     blockedIPs := fun x => if x = clientIP then false else s1.blockedIPs x,
     suspiciousIPs := fun x => if x = clientIP then false else s1.suspiciousIPs x },
   true)

/-- cleanup (part_005 lines 292-315): per tracked IP, keep only
timestamps strictly newer than `now - 10 × window`; delete the record
(and its suspicious flag) when it is unblocked and has no timestamps
left. -/
def cleanup (cfg : Config) (s : BotState) (now : Int) : BotState :=
  let cutoff := now - cfg.TIME_WINDOW_MS * 10
  let removed : String → Bool := fun ip =>
    match s.ipRequestTracker ip with
    | some data =>
      data.blocked = false ∧ (data.requests.filter fun ts => decide (cutoff < ts)) = []
    | none => false
  { s with
    ipRequestTracker := fun ip =>
      match s.ipRequestTracker ip with
      | some data =>
        let reqs := data.requests.filter fun ts => decide (cutoff < ts)
        if data.blocked = false ∧ reqs = [] then none
        else some { data with requests := reqs }
      | none => none,
    suspiciousIPs := fun ip => if removed ip then false else s.suspiciousIPs ip }

/-- checkRequest (part_005 lines 43-105): blocked-IP check first, then
bot user agent, then suspicious headers, then the sliding-window rate
limit (which alone installs a timed block), else record and admit. -/
def checkRequest (cfg : Config) (s : BotState) (clientIP userAgent : String)
    (headers : Headers) (now : Int) : GateDecision × BotState :=
  let p := isIPBlocked s clientIP now
  if p.1 then
    let bu : Int :=
      match p.2.ipRequestTracker clientIP with
      | some d =>
        match d.blockedUntil with
        | some b => if b = 0 then now else b
        | none => now
      | none => now
    ({ blocked := true, reason := some GateReason.ipBlocked,
       retryAfter := jsCeilDiv (bu - now) 1000,
       ruleTriggered := some Rule.IP_BLOCKED }, p.2)
  else if isBotUserAgent userAgent then
    ({ blocked := true, reason := some GateReason.botUserAgent,
       retryAfter := jsCeilDiv cfg.BLOCK_DURATION_MS 1000,
       ruleTriggered := some Rule.BOT_USER_AGENT },
     flagSuspiciousIP p.2 clientIP "BOT_USER_AGENT")
  else
    let shc := checkSuspiciousHeaders headers
    if shc.suspicious then
      ({ blocked := true, reason := some (GateReason.suspicious (shc.reason.getD "")),
         retryAfter := jsCeilDiv cfg.BLOCK_DURATION_MS 1000,
         ruleTriggered := some Rule.SUSPICIOUS_HEADERS },
       flagSuspiciousIP p.2 clientIP (shc.reason.getD ""))
    else if (checkRateLimit cfg p.2 clientIP now).exceeded then
      ({ blocked := true,
         reason := some (GateReason.rateLimited cfg.MAX_REQUESTS_PER_WINDOW cfg.TIME_WINDOW_MS),
         retryAfter := jsCeilDiv cfg.BLOCK_DURATION_MS 1000,
         ruleTriggered := some Rule.RATE_LIMIT },
       blockIP p.2 clientIP (now + cfg.BLOCK_DURATION_MS) "RATE_LIMIT_EXCEEDED" now)
    else
      ({ blocked := false, reason := none, retryAfter := 0, ruleTriggered := none },
       recordRequest cfg p.2 clientIP now)

/-- Run `checkRequest` over a list of arrival times with a fixed
client (the repeated invocation of the gate by the HTTP layer). -/
def processAll (cfg : Config) (ip ua : String) (headers : Headers) :
    BotState → List Int → BotState × List GateDecision
  | s, [] => (s, [])
  | s, t :: rest =>
    let r := checkRequest cfg s ip ua headers t
    let q := processAll cfg ip ua headers r.2 rest
    (q.1, r.1 :: q.2)

/-! ### Data model of the global per-minute mint limiter
(src/unnamed/part_002) and the mint phase of the claim handler
(src/api/server.js lines 404-431) -/

/-- A clock reading, carrying both the epoch-milliseconds value
(`Date.prototype.getTime`) and the local calendar components used by
`getCurrentMinuteKey`. -/
structure JsDate where
  epochMs : Int
  year : Int
  month : Nat
  day : Nat
  hour : Nat
  minute : Nat
deriving DecidableEq, Repr

/-- The calendar-minute key
`year-month-day-hour-minute` built by `getCurrentMinuteKey`. -/
structure MinuteKey where
  year : Int
  month : Nat
  day : Nat
  hour : Nat
  minute : Nat
deriving DecidableEq, Repr

/-- One entry of `this.globalMintTracker`: a count plus the creation
instant (stored as an ISO string in the source, read back with
`new Date(data.timestamp).getTime()`; modelled directly in epoch
milliseconds). -/
structure MintBucket where
  count : Nat
  timestamp : Int
deriving DecidableEq, Repr

/-- The state of the global limiter: the `globalMintTracker` map. -/
structure MintState where
  globalMintTracker : MinuteKey → Option MintBucket

/-- A fresh limiter: empty tracker. -/
def emptyMintState : MintState := ⟨fun _ => none⟩

/-- this.GLOBAL_TOKENS_PER_MINUTE = 20. -/
def GLOBAL_TOKENS_PER_MINUTE : Nat := 20

/-- getCurrentMinuteKey (part_002 lines 133-137). -/
def getCurrentMinuteKey (now : JsDate) : MinuteKey :=
  ⟨now.year, now.month, now.day, now.hour, now.minute⟩

/-- cleanupOldMintTracking (part_002 lines 139-150): purge buckets
whose creation instant is more than two minutes in the past. -/
def cleanupOldMintTracking (st : MintState) (now : JsDate) : MintState :=
  ⟨fun k =>
    match st.globalMintTracker k with
    | some data =>
      if now.epochMs - data.timestamp > 2 * 60 * 1000 then none else some data
    | none => none⟩

/-- isGlobalRateLimitExceeded (part_002 lines 152-162): after the
purge, the current calendar-minute bucket must exist and have count ≥
`GLOBAL_TOKENS_PER_MINUTE` for the limit to be exceeded. -/
def isGlobalRateLimitExceeded (st : MintState) (now : JsDate) : Bool × MintState :=
  let st1 := cleanupOldMintTracking st now
  match st1.globalMintTracker (getCurrentMinuteKey now) with
  | none => (false, st1)
  | some currentMinuteData =>
    (decide (GLOBAL_TOKENS_PER_MINUTE ≤ currentMinuteData.count), st1)

/-- recordGlobalMint (part_002 lines 164-178): after the purge,
increment the current minute's bucket, creating it (count 0, stamped
now) if absent. -/
def recordGlobalMint (st : MintState) (now : JsDate) : MintState :=
  let st1 := cleanupOldMintTracking st now
  let key := getCurrentMinuteKey now
  let currentData := (st1.globalMintTracker key).getD ⟨0, now.epochMs⟩
  ⟨fun k =>
    if k = key then some { currentData with count := currentData.count + 1 }
    else st1.globalMintTracker k⟩

/-- The count the tracker stores for the current calendar minute (0
when the bucket is absent). -/
def getCurrentCount (st : MintState) (now : JsDate) : Nat :=
  match st.globalMintTracker (getCurrentMinuteKey now) with
  | some d => d.count
  | none => 0

/-- Iterate `recordGlobalMint` (a burst of successful mints within one
minute). -/
def recordN : Nat → MintState → JsDate → MintState
  | 0, st, _ => st
  | n + 1, st, now => recordN n (recordGlobalMint st now) now

/-- Outcome of the mint phase of `POST /api/claim/token`. -/
structure ClaimResult where
  status : Nat
  mintAttempted : Bool
  finalState : MintState

/-- The mint phase of the claim handler (server.js lines 404-431):
check the global limiter first and answer 429 without minting when it
is exceeded; otherwise perform the mint, whose success or failure is
the `mintOutcome` argument.  A throwing mint is caught by the
handler's try/catch (answering 500) before `recordGlobalMint` is
reached, so only a successful mint increments the global bucket.
(`recordClaim`, called between the mint and `recordGlobalMint`, only
touches the separate per-address claims map and cannot throw in the
serverless service, so it is not modelled here.) -/
def claimTokenMintPhase (st : MintState) (now : JsDate) (mintOutcome : Except String String) :
    ClaimResult :=
  let p := isGlobalRateLimitExceeded st now
  if p.1 then ⟨429, false, p.2⟩
  else
    match mintOutcome with
    | Except.error _ => ⟨500, true, p.2⟩
    | Except.ok _ => ⟨200, true, recordGlobalMint p.2 now⟩

/-! ### Sample inputs used by the concrete witnesses -/

/-- A small sample configuration: 2 requests per 10 s window, 1 h
block. -/
def sampleCfg : Config := ⟨2, 10000, 3600000⟩

/-- A benign browser header map (has all three accept headers, not
star-slash-star). -/
def sampleHeaders : Headers :=
  [("accept", "text/html"), ("accept-language", "en"), ("accept-encoding", "gzip")]

/-! ### Theorems -/

/-- Claim C1: checkRequest applies its checks in this exact order,
first match deciding: an active IP block yields an IP_BLOCKED denial
with no state change beyond the lazy-expiry step; else a bot user
agent yields a BOT_USER_AGENT denial that only flags the IP; else
suspicious headers yield a SUSPICIOUS_HEADERS denial that only flags
the IP; else an exceeded sliding window yields a RATE_LIMIT denial
that installs a timed block; otherwise the arrival is recorded and the
request is allowed. -/
theorem checkRequest_check_order (cfg : Config) (s : BotState) (ip ua : String)
    (hdrs : Headers) (now : Int) :
    if (isIPBlocked s ip now).1 then
      (checkRequest cfg s ip ua hdrs now).1.blocked = true ∧
      (checkRequest cfg s ip ua hdrs now).1.ruleTriggered = some Rule.IP_BLOCKED ∧
      (checkRequest cfg s ip ua hdrs now).2 = (isIPBlocked s ip now).2
    else if isBotUserAgent ua then
      (checkRequest cfg s ip ua hdrs now).1.blocked = true ∧
      (checkRequest cfg s ip ua hdrs now).1.ruleTriggered = some Rule.BOT_USER_AGENT ∧
      (checkRequest cfg s ip ua hdrs now).2 =
        flagSuspiciousIP (isIPBlocked s ip now).2 ip "BOT_USER_AGENT"
    else if (checkSuspiciousHeaders hdrs).suspicious then
      (checkRequest cfg s ip ua hdrs now).1.blocked = true ∧
      (checkRequest cfg s ip ua hdrs now).1.ruleTriggered = some Rule.SUSPICIOUS_HEADERS ∧
      (checkRequest cfg s ip ua hdrs now).2 =
        flagSuspiciousIP (isIPBlocked s ip now).2 ip
          ((checkSuspiciousHeaders hdrs).reason.getD "")
    else if (checkRateLimit cfg (isIPBlocked s ip now).2 ip now).exceeded then
      (checkRequest cfg s ip ua hdrs now).1.blocked = true ∧
      (checkRequest cfg s ip ua hdrs now).1.ruleTriggered = some Rule.RATE_LIMIT ∧
      (checkRequest cfg s ip ua hdrs now).2 =
        blockIP (isIPBlocked s ip now).2 ip (now + cfg.BLOCK_DURATION_MS)
          "RATE_LIMIT_EXCEEDED" now
    else
      (checkRequest cfg s ip ua hdrs now).1.blocked = false ∧
      (checkRequest cfg s ip ua hdrs now).1.ruleTriggered = none ∧
      (checkRequest cfg s ip ua hdrs now).2 =
        recordRequest cfg (isIPBlocked s ip now).2 ip now := by
  simp only [checkRequest]
  split_ifs with h1 h2 h3 h4 <;> simp

/-- Claim C10: unblockIP clears the block fields of the record (when
one exists), removes the IP from the blocked set and from the
suspicious set, always returns true, and a second call leaves the
state unchanged and returns the same result. -/
theorem unblockIP_clears_and_idempotent (s : BotState) (ip : String) :
    (unblockIP s ip).2 = true ∧
    (unblockIP s ip).1.suspiciousIPs ip = false ∧
    (unblockIP s ip).1.blockedIPs ip = false ∧
    (unblockIP s ip).1.ipRequestTracker ip =
      (s.ipRequestTracker ip).map (fun d =>
        { d with blocked := false, blockedUntil := none, blockReason := none, blockedAt := none }) ∧
    unblockIP (unblockIP s ip).1 ip = unblockIP s ip := by
  cases h : s.ipRequestTracker ip with
  | none =>
    refine ⟨rfl, by simp [unblockIP, h], by simp [unblockIP, h], by simp [unblockIP, h], ?_⟩
    simp only [unblockIP, h]
    refine Prod.ext ?_ rfl
    refine BotState.ext ?_ ?_ ?_ <;> funext x <;> by_cases hx : x = ip <;> simp [h, hx]
  | some d =>
    refine ⟨rfl, by simp [unblockIP, h], by simp [unblockIP, h], by simp [unblockIP, h], ?_⟩
    simp only [unblockIP, h]
    have h2 : (fun x =>
        if x = ip then
          some { d with blocked := false, blockedUntil := none, blockReason := none, blockedAt := none }
        else s.ipRequestTracker x) ip =
        some { d with blocked := false, blockedUntil := none, blockReason := none, blockedAt := none } := by
      simp
    refine Prod.ext ?_ rfl
    refine BotState.ext ?_ ?_ ?_ <;> funext x <;> by_cases hx : x = ip <;> simp [h, hx, h2]

/-- A record blocked until instant 100 (used to witness the lazy
expiry claim). -/
def c5Data : IPData := ⟨[], true, some 100, some "RATE_LIMIT_EXCEEDED", some 0⟩

/-- A state in which IP 5.5.5.5 is blocked until instant 100. -/
def c5State : BotState :=
  ⟨fun x => if x = "5.5.5.5" then some c5Data else none,
   fun _ => false,
   fun x => if x = "5.5.5.5" then true else false⟩

/-- Claim C5: for an IP whose record is blocked with blockedUntil
T + D (T a real clock value, D a positive duration), every blocked
check strictly before T + D reports blocked without touching the state
and checkRequest denies with IP_BLOCKED; the first check at or after
T + D returns not-blocked and, as a side effect, clears the record's
blocked flag and blockedUntil and removes the IP from the blocked set,
leaving the blocked flag observably false. -/
theorem ipBlock_lazy_expiry (cfg : Config) (s : BotState) (ip ua : String) (hdrs : Headers)
    (T D now : Int) (d : IPData)
    (hd : s.ipRequestTracker ip = some d)
    (hb : d.blocked = true)
    (hbu : d.blockedUntil = some (T + D))
    (hT : 0 ≤ T) (hD : 0 < D) :
    if now < T + D then
      isIPBlocked s ip now = (true, s) ∧
      (checkRequest cfg s ip ua hdrs now).1.blocked = true ∧
      (checkRequest cfg s ip ua hdrs now).1.ruleTriggered = some Rule.IP_BLOCKED
    else
      (isIPBlocked s ip now).1 = false ∧
      (isIPBlocked s ip now).2.ipRequestTracker ip =
        some { d with blocked := false, blockedUntil := none } ∧
      (isIPBlocked s ip now).2.blockedIPs ip = false ∧
      ((isIPBlocked s ip now).2.ipRequestTracker ip).map IPData.blocked = some false := by
  have hTD : (0 : Int) < T + D := by omega
  split_ifs with hnow
  · have hblocked : isIPBlocked s ip now = (true, s) := by
      simp only [isIPBlocked, hd, hb]
      rw [hbu]
      have : ¬ (T + D ≠ 0 ∧ T + D ≤ now) := by omega
      simp [this]
    refine ⟨hblocked, ?_, ?_⟩ <;> simp [checkRequest, hblocked]
  · simp only [isIPBlocked, hd, hb]
    rw [hbu]
    have : T + D ≠ 0 ∧ T + D ≤ now := by omega
    simp [this]

/-- Claim C5 witness: IP 5.5.5.5 blocked until 100 (T = 0, D = 100);
at instant 50 the gate denies with IP_BLOCKED and the state is
untouched. -/
theorem ipBlock_lazy_expiry_witness :
    isIPBlocked c5State "5.5.5.5" 50 = (true, c5State) ∧
    (checkRequest sampleCfg c5State "5.5.5.5" "Mozilla/5.0" sampleHeaders 50).1.ruleTriggered =
      some Rule.IP_BLOCKED := by
  have h := ipBlock_lazy_expiry sampleCfg c5State "5.5.5.5" "Mozilla/5.0" sampleHeaders
    0 100 50 c5Data (by simp [c5State]) rfl (by decide) (by decide) (by decide)
  rw [if_pos (by decide : (50 : Int) < 0 + 100)] at h
  exact ⟨h.1, h.2.2⟩

/-- A record of a blocked IP with one stored timestamp at instant 0
(used for the cleanup claim). -/
def c7Data : IPData := ⟨[0], true, some 999999999, none, none⟩

/-- A state tracking IP 7.7.7.7 with `c7Data` and flagging it
suspicious. -/
def c7State : BotState :=
  ⟨fun x => if x = "7.7.7.7" then some c7Data else none,
   fun x => if x = "7.7.7.7" then true else false,
   fun x => if x = "7.7.7.7" then true else false⟩

/-- Claim C7 counterexample: with a 10 s window, a timestamp at
instant 0 observed by the cleanup sweep at instant 100000 is exactly
10 times the window old, not strictly older, yet the sweep removes it
(the source keeps only timestamps strictly greater than
now - 10 x window). -/
theorem cleanup_boundary_counterexample :
    ((cleanup sampleCfg c7State 100000).ipRequestTracker "7.7.7.7").map IPData.requests =
      some [] ∧
    ¬ ((100000 : Int) - 0 > sampleCfg.TIME_WINDOW_MS * 10) ∧
    (c7State.ipRequestTracker "7.7.7.7").map IPData.requests = some [0] := by
  refine ⟨?_, by norm_num [sampleCfg], by simp [c7State, c7Data]⟩
  simp [cleanup, c7State, c7Data, sampleCfg]

/-- Claim C7 (amended): the cleanup sweep keeps, for every tracked IP,
exactly the timestamps strictly newer than now - 10 x window
(dropping those at least 10 windows old), and deletes the record and
its suspicious flag exactly when the record is unblocked and has zero
remaining timestamps; a record whose blocked flag is set is always
kept, still blocked, even if its timestamp list became empty. -/
theorem cleanup_prunes_and_preserves_blocks (cfg : Config) (s : BotState) (now : Int)
    (ip : String) (d : IPData) (hd : s.ipRequestTracker ip = some d) :
    ((cleanup cfg s now).ipRequestTracker ip =
      if d.blocked = false ∧
          (d.requests.filter fun ts => decide (now - cfg.TIME_WINDOW_MS * 10 < ts)) = [] then
        none
      else
        some { d with requests := d.requests.filter fun ts => decide (now - cfg.TIME_WINDOW_MS * 10 < ts) }) ∧
    ((cleanup cfg s now).suspiciousIPs ip =
      if d.blocked = false ∧
          (d.requests.filter fun ts => decide (now - cfg.TIME_WINDOW_MS * 10 < ts)) = [] then
        false
      else s.suspiciousIPs ip) ∧
    (if d.blocked = true then
      ((cleanup cfg s now).ipRequestTracker ip).map IPData.blocked = some true
    else True) := by
  refine ⟨?_, ?_, ?_⟩
  · simp only [cleanup, hd]
  · simp only [cleanup, hd]
    split_ifs <;> simp_all
  · split_ifs with hb
    simp only [cleanup, hd, hb]
    split_ifs <;> simp_all

/-- Claim C7 witness: the actively blocked IP 7.7.7.7 is still
present and still blocked after a sweep that emptied its timestamp
list. -/
theorem cleanup_preserves_blocks_witness :
    ((cleanup sampleCfg c7State 100000).ipRequestTracker "7.7.7.7").map IPData.blocked =
      some true := by
  have h := cleanup_prunes_and_preserves_blocks sampleCfg c7State 100000 "7.7.7.7" c7Data
    (by simp [c7State])
  have h3 := h.2.2
  simpa [c7Data] using h3

/-- The blocked flag and blockedUntil instant the tracker holds for an
IP (an untracked IP reads as the fresh-record values: not blocked, no
expiry). -/
def blockView (s : BotState) (ip : String) : Bool × Option Int :=
  match s.ipRequestTracker ip with
  | some d => (d.blocked, d.blockedUntil)
  | none => (false, none)

/-- Configuration with a 1-request window, used to reach a blocked
state in two gate calls. -/
def c8Cfg : Config := ⟨1, 10000, 3600000⟩

/-- State after one admitted browser request from IP 8.8.8.8 at
instant 0. -/
def c8State1 : BotState :=
  (checkRequest c8Cfg emptyBotState "8.8.8.8" "Mozilla/5.0" sampleHeaders 0).2

/-- State after a second request at instant 1000 tripped the rate
limit and installed a block on 8.8.8.8 until instant 3601000. -/
def c8State2 : BotState :=
  (checkRequest c8Cfg c8State1 "8.8.8.8" "Mozilla/5.0" sampleHeaders 1000).2

/-- Claim C8 counterexample: a curl request from an IP holding an
active block (reached through two ordinary gate calls) is denied with
ruleTriggered IP_BLOCKED, not BOT_USER_AGENT, so the bot user agents
are not ALWAYS denied with BOT_USER_AGENT. -/
theorem botUA_blocked_counterexample :
    (checkRequest c8Cfg c8State2 "8.8.8.8" "curl/7.68.0" sampleHeaders 2000).1.blocked = true ∧
    (checkRequest c8Cfg c8State2 "8.8.8.8" "curl/7.68.0" sampleHeaders 2000).1.ruleTriggered =
      some Rule.IP_BLOCKED ∧
    some Rule.IP_BLOCKED ≠ some Rule.BOT_USER_AGENT := by
  refine ⟨?_, ?_, by decide⟩ <;> decide

/-- Claim C8 (amended): isBotUserAgent is true exactly when the user
agent is empty or whitespace-only, or contains one of the configured
bot signatures case-insensitively; consequently, requests with
User-Agent empty, curl/7.68.0, python-requests/2.25.1, or
PostmanRuntime/7.28.4 are always denied regardless of request count,
and whenever the IP has no active block the denial carries
ruleTriggered BOT_USER_AGENT. -/
theorem botUA_classification (cfg : Config) (s : BotState) (ip ua : String)
    (hdrs : Headers) (now : Int)
    (hnb : (isIPBlocked s ip now).1 = false) :
    (isBotUserAgent ua = true ↔
      (ua.toList.all Char.isWhitespace = true ∨
        ∃ p, p ∈ BOT_USER_AGENTS ∧ icontains ua p = true)) ∧
    (∀ u, u ∈ (["", "curl/7.68.0", "python-requests/2.25.1", "PostmanRuntime/7.28.4"] : List String) →
      (checkRequest cfg s ip u hdrs now).1.blocked = true ∧
      (checkRequest cfg s ip u hdrs now).1.ruleTriggered = some Rule.BOT_USER_AGENT) := by
  constructor
  · by_cases hw : ua.toList.all Char.isWhitespace <;>
      simp [isBotUserAgent, hw, List.any_eq_true]
  · have h1 : isBotUserAgent "" = true := by decide
    have h2 : isBotUserAgent "curl/7.68.0" = true := by decide
    have h3 : isBotUserAgent "python-requests/2.25.1" = true := by decide
    have h4 : isBotUserAgent "PostmanRuntime/7.28.4" = true := by decide
    intro u hu
    simp only [List.mem_cons, List.not_mem_nil, or_false] at hu
    rcases hu with rfl | rfl | rfl | rfl <;>
      simp [checkRequest, hnb, h1, h2, h3, h4]

/-- Claim C8 witness: from the empty state (no block on the IP), a
python-requests user agent is denied with BOT_USER_AGENT. -/
theorem botUA_classification_witness :
    (checkRequest sampleCfg emptyBotState "8.8.4.4" "python-requests/2.25.1" sampleHeaders 0).1.blocked = true ∧
    (checkRequest sampleCfg emptyBotState "8.8.4.4" "python-requests/2.25.1" sampleHeaders 0).1.ruleTriggered =
      some Rule.BOT_USER_AGENT := by
  have h := botUA_classification sampleCfg emptyBotState "8.8.4.4" "x" sampleHeaders 0
    (by simp [isIPBlocked, emptyBotState])
  exact h.2 "python-requests/2.25.1" (by simp)

/-- Record of IP 6.6.6.6: blocked at instant 1000 for an hour, so the
block expired at 3601000. -/
def c6Data : IPData := ⟨[0], true, some 3601000, some "RATE_LIMIT_EXCEEDED", some 1000⟩

/-- State holding the expired block of `c6Data`. -/
def c6State : BotState :=
  ⟨fun x => if x = "6.6.6.6" then some c6Data else none,
   fun _ => false,
   fun x => if x = "6.6.6.6" then true else false⟩

/-- Claim C6 counterexample: a curl request arriving after the block
of 6.6.6.6 expired is denied with BOT_USER_AGENT, yet this very call
changes the record's blocked flag from true to false (the lazy expiry
performed by the blocked-IP check), so a bot-user-agent denial does
not always leave the blocked flag unchanged. -/
theorem bot_denial_frame_counterexample :
    (checkRequest sampleCfg c6State "6.6.6.6" "curl/7.68.0" sampleHeaders 3700000).1.ruleTriggered =
      some Rule.BOT_USER_AGENT ∧
    (c6State.ipRequestTracker "6.6.6.6").map IPData.blocked = some true ∧
    ((checkRequest sampleCfg c6State "6.6.6.6" "curl/7.68.0" sampleHeaders 3700000).2.ipRequestTracker
        "6.6.6.6").map IPData.blocked = some false := by
  refine ⟨?_, by decide, ?_⟩ <;> decide

/-- Claim C6 (amended): relative to the state left by the blocked-IP
check (which may only have cleared an already-expired block), a
BOT_USER_AGENT or SUSPICIOUS_HEADERS denial adds the IP to the
suspicious set and leaves the blocked flag, blockedUntil and the
blocked-IP set unchanged (installing no timed block), while a
RATE_LIMIT denial installs blocked = true with expiry
now + BLOCK_DURATION_MS; every other outcome leaves the block state
as the blocked-IP check left it. -/
theorem gate_block_asymmetry (cfg : Config) (s : BotState) (ip ua : String)
    (hdrs : Headers) (now : Int) :
    ((checkRequest cfg s ip ua hdrs now).1.ruleTriggered = some Rule.BOT_USER_AGENT ∨
      (checkRequest cfg s ip ua hdrs now).1.ruleTriggered = some Rule.SUSPICIOUS_HEADERS →
        (checkRequest cfg s ip ua hdrs now).2.suspiciousIPs ip = true ∧
        blockView (checkRequest cfg s ip ua hdrs now).2 ip = blockView (isIPBlocked s ip now).2 ip ∧
        (checkRequest cfg s ip ua hdrs now).2.blockedIPs ip = (isIPBlocked s ip now).2.blockedIPs ip) ∧
    ((checkRequest cfg s ip ua hdrs now).1.ruleTriggered = some Rule.RATE_LIMIT →
      blockView (checkRequest cfg s ip ua hdrs now).2 ip = (true, some (now + cfg.BLOCK_DURATION_MS))) ∧
    ((checkRequest cfg s ip ua hdrs now).1.ruleTriggered ≠ some Rule.RATE_LIMIT →
      blockView (checkRequest cfg s ip ua hdrs now).2 ip = blockView (isIPBlocked s ip now).2 ip) := by
  simp only [checkRequest]
  split_ifs with h1 h2 h3 h4
  · exact ⟨fun hr => by simp at hr, fun hr => by simp at hr, fun hr => rfl⟩
  · refine ⟨fun hr => ⟨by simp [flagSuspiciousIP], ?_, rfl⟩, fun hr => by simp at hr,
      fun hr => ?_⟩ <;> simp [flagSuspiciousIP, blockView]
  · refine ⟨fun hr => ⟨by simp [flagSuspiciousIP], ?_, rfl⟩, fun hr => by simp at hr,
      fun hr => ?_⟩ <;> simp [flagSuspiciousIP, blockView]
  · refine ⟨fun hr => by simp at hr, fun hr => by simp [blockIP, blockView],
      fun hr => absurd rfl hr⟩
  · refine ⟨fun hr => by simp at hr, fun hr => by simp at hr, fun hr => ?_⟩
    cases hrec : (isIPBlocked s ip now).2.ipRequestTracker ip <;>
      simp [recordRequest, blockView, hrec, emptyIPData]

/-- Claim C6 witness: a suspicious-headers denial (missing browser
headers) from the empty state flags the IP and leaves it unblocked. -/
theorem gate_block_asymmetry_witness :
    (checkRequest sampleCfg emptyBotState "3.3.3.3" "Mozilla/5.0" [] 0).2.suspiciousIPs "3.3.3.3" = true ∧
    blockView (checkRequest sampleCfg emptyBotState "3.3.3.3" "Mozilla/5.0" [] 0).2 "3.3.3.3" =
      blockView (isIPBlocked emptyBotState "3.3.3.3" 0).2 "3.3.3.3" := by
  have h := gate_block_asymmetry sampleCfg emptyBotState "3.3.3.3" "Mozilla/5.0" [] 0
  have hs := h.1 (Or.inr (by decide))
  exact ⟨hs.1, hs.2.1⟩

/-- The exceeded flag of checkRateLimit spelt out: it is the
greater-or-equal comparison of the in-window count with the
configured maximum. -/
theorem checkRateLimit_exceeded_iff (cfg : Config) (s : BotState) (ip : String) (now : Int) :
    (checkRateLimit cfg s ip now).exceeded = true ↔
      cfg.MAX_REQUESTS_PER_WINDOW ≤
        (((s.ipRequestTracker ip).getD emptyIPData).requests.filter
          fun ts => decide (now - ts ≤ cfg.TIME_WINDOW_MS)).length := by
  simp only [checkRateLimit]
  split_ifs with h
  · exact iff_of_true rfl h
  · exact iff_of_false (by simp) h

/-- A request from an unblocked, tracked-or-fresh IP with a benign
user agent and benign headers, whose in-window count is still below
the maximum, is admitted and its timestamp recorded (with the
2-window prune applied). -/
theorem checkRequest_allowed_step (cfg : Config) (s : BotState) (ip ua : String)
    (hdrs : Headers) (now : Int) (acc : List Int)
    (hua : isBotUserAgent ua = false)
    (hhdrs : (checkSuspiciousHeaders hdrs).suspicious = false)
    (hrec : (s.ipRequestTracker ip).getD emptyIPData = ⟨acc, false, none, none, none⟩)
    (hcount : (acc.filter fun ts => decide (now - ts ≤ cfg.TIME_WINDOW_MS)).length <
      cfg.MAX_REQUESTS_PER_WINDOW) :
    (checkRequest cfg s ip ua hdrs now).1 = ⟨false, none, 0, none⟩ ∧
    ((checkRequest cfg s ip ua hdrs now).2.ipRequestTracker ip).getD emptyIPData =
      ⟨(acc ++ [now]).filter fun ts => decide (now - cfg.TIME_WINDOW_MS * 2 < ts),
       false, none, none, none⟩ := by
  have hIB : isIPBlocked s ip now = (false, s) := by
    cases h : s.ipRequestTracker ip with
    | none => simp [isIPBlocked, h]
    | some d =>
      have hd : d = ⟨acc, false, none, none, none⟩ := by simpa [h] using hrec
      simp [isIPBlocked, h, hd]
  have hRL : (checkRateLimit cfg s ip now).exceeded = false := by
    simp only [checkRateLimit, hrec]
    split_ifs with h
    · exact absurd h (by omega)
    · rfl
  have main : checkRequest cfg s ip ua hdrs now =
      (⟨false, none, 0, none⟩, recordRequest cfg s ip now) := by
    simp [checkRequest, hIB, hua, hhdrs, hRL]
  rw [main]
  exact ⟨rfl, by simp [recordRequest, hrec]⟩

/-- A request from an unblocked IP with a benign user agent and
headers whose in-window count already reached the maximum is denied
with RATE_LIMIT and a block until now + BLOCK_DURATION_MS is
installed. -/
theorem checkRequest_rate_limited_step (cfg : Config) (s : BotState) (ip ua : String)
    (hdrs : Headers) (now : Int) (acc : List Int)
    (hua : isBotUserAgent ua = false)
    (hhdrs : (checkSuspiciousHeaders hdrs).suspicious = false)
    (hrec : (s.ipRequestTracker ip).getD emptyIPData = ⟨acc, false, none, none, none⟩)
    (hcount : cfg.MAX_REQUESTS_PER_WINDOW ≤
      (acc.filter fun ts => decide (now - ts ≤ cfg.TIME_WINDOW_MS)).length) :
    (checkRequest cfg s ip ua hdrs now).1.blocked = true ∧
    (checkRequest cfg s ip ua hdrs now).1.ruleTriggered = some Rule.RATE_LIMIT ∧
    blockView (checkRequest cfg s ip ua hdrs now).2 ip =
      (true, some (now + cfg.BLOCK_DURATION_MS)) := by
  have hIB : isIPBlocked s ip now = (false, s) := by
    cases h : s.ipRequestTracker ip with
    | none => simp [isIPBlocked, h]
    | some d =>
      have hd : d = ⟨acc, false, none, none, none⟩ := by simpa [h] using hrec
      simp [isIPBlocked, h, hd]
  have hRL : (checkRateLimit cfg s ip now).exceeded = true := by
    rw [checkRateLimit_exceeded_iff, hrec]
    exact hcount
  refine ⟨?_, ?_, ?_⟩ <;> simp [checkRequest, hIB, hua, hhdrs, hRL, blockIP, blockView]

/-- processAll distributes over list append. -/
theorem processAll_append (cfg : Config) (ip ua : String) (hdrs : Headers) :
    ∀ (l1 l2 : List Int) (s : BotState),
      processAll cfg ip ua hdrs s (l1 ++ l2) =
        ((processAll cfg ip ua hdrs (processAll cfg ip ua hdrs s l1).1 l2).1,
         (processAll cfg ip ua hdrs s l1).2 ++
           (processAll cfg ip ua hdrs (processAll cfg ip ua hdrs s l1).1 l2).2) := by
  intro l1
  induction l1 with
  | nil => intro l2 s; simp [processAll]
  | cons t rest ih => intro l2 s; simp [processAll, ih]

/-- As long as the total number of arrivals stays within the maximum
and all arrivals lie within one window of each other, every request of
the burst is admitted (the decisions are all the allowed decision) and
the accumulated timestamps are exactly the arrivals processed so
far. -/
theorem processAll_all_allowed (cfg : Config) (ip ua : String) (hdrs : Headers)
    (hua : isBotUserAgent ua = false)
    (hhdrs : (checkSuspiciousHeaders hdrs).suspicious = false)
    (hW : 0 < cfg.TIME_WINDOW_MS)
    (allT : List Int) (hwin : ∀ x ∈ allT, ∀ y ∈ allT, x - y ≤ cfg.TIME_WINDOW_MS) :
    ∀ (ts acc : List Int) (s : BotState),
      (∀ a ∈ acc, a ∈ allT) → (∀ t ∈ ts, t ∈ allT) →
      acc.length + ts.length ≤ cfg.MAX_REQUESTS_PER_WINDOW →
      (s.ipRequestTracker ip).getD emptyIPData = ⟨acc, false, none, none, none⟩ →
      (processAll cfg ip ua hdrs s ts).2 =
        List.replicate ts.length (⟨false, none, 0, none⟩ : GateDecision) ∧
      ((processAll cfg ip ua hdrs s ts).1.ipRequestTracker ip).getD emptyIPData =
        ⟨acc ++ ts, false, none, none, none⟩ := by
  intro ts
  induction ts with
  | nil =>
    intro acc s _ _ _ hrec
    simpa [processAll] using hrec
  | cons t rest ih =>
    intro acc s hacc hts hlen hrec
    have htT : t ∈ allT := hts t (by simp)
    have hcount : (acc.filter fun ts => decide (t - ts ≤ cfg.TIME_WINDOW_MS)).length <
        cfg.MAX_REQUESTS_PER_WINDOW := by
      have hle : (acc.filter fun ts => decide (t - ts ≤ cfg.TIME_WINDOW_MS)).length ≤
          acc.length := List.length_filter_le _ _
      have : acc.length < cfg.MAX_REQUESTS_PER_WINDOW := by
        simp at hlen; omega
      omega
    obtain ⟨hdec, htr⟩ := checkRequest_allowed_step cfg s ip ua hdrs t acc hua hhdrs hrec hcount
    have hkeep : ((acc ++ [t]).filter fun ts => decide (t - cfg.TIME_WINDOW_MS * 2 < ts)) =
        acc ++ [t] := by
      rw [List.filter_eq_self]
      intro a ha
      simp only [List.mem_append, List.mem_singleton] at ha
      rcases ha with ha | rfl
      · have := hwin t htT a (hacc a ha)
        simp only [decide_eq_true_eq]
        omega
      · simp only [decide_eq_true_eq]
        omega
    rw [hkeep] at htr
    obtain ⟨ihdec, ihtr⟩ := ih (acc ++ [t]) (checkRequest cfg s ip ua hdrs t).2
      (by intro a ha; simp only [List.mem_append, List.mem_singleton] at ha
          rcases ha with ha | rfl
          · exact hacc a ha
          · exact htT)
      (fun x hx => hts x (by simp [hx]))
      (by simp at hlen ⊢; omega) htr
    constructor
    · simp only [processAll, ihdec, hdec, List.length_cons, List.replicate_succ]
    · simpa [processAll] using ihtr

/-- Claim C2: starting from an untracked IP with a benign user agent
and headers, a burst of exactly MAX_REQUESTS_PER_WINDOW arrivals all
within one window of each other is fully admitted (each decision is
the allowed one), and one further arrival within the same window is
denied with ruleTriggered RATE_LIMIT, installing a timed block until
that arrival time plus BLOCK_DURATION_MS; the exceeded test fires
with exactly MAX timestamps already recorded (greater-or-equal, and
evaluated before the current arrival is recorded). -/
theorem sliding_window_boundary (cfg : Config) (ip ua : String) (hdrs : Headers)
    (s : BotState) (ts : List Int) (tN : Int)
    (hua : isBotUserAgent ua = false)
    (hhdrs : (checkSuspiciousHeaders hdrs).suspicious = false)
    (hW : 0 < cfg.TIME_WINDOW_MS)
    (hlen : ts.length = cfg.MAX_REQUESTS_PER_WINDOW)
    (hwin : ∀ x ∈ tN :: ts, ∀ y ∈ tN :: ts, x - y ≤ cfg.TIME_WINDOW_MS)
    (hs : s.ipRequestTracker ip = none) :
    ∃ s2 dN,
      processAll cfg ip ua hdrs s (ts ++ [tN]) =
        (s2, List.replicate cfg.MAX_REQUESTS_PER_WINDOW (⟨false, none, 0, none⟩ : GateDecision)
          ++ [dN]) ∧
      dN.blocked = true ∧
      dN.ruleTriggered = some Rule.RATE_LIMIT ∧
      blockView s2 ip = (true, some (tN + cfg.BLOCK_DURATION_MS)) := by
  obtain ⟨hdec, htr⟩ := processAll_all_allowed cfg ip ua hdrs hua hhdrs hW (tN :: ts) hwin
    ts [] s (by simp) (fun t ht => by simp [ht]) (by simpa using hlen.le)
    (by simp [hs, emptyIPData])
  simp only [List.nil_append] at htr
  have hcount : cfg.MAX_REQUESTS_PER_WINDOW ≤
      (ts.filter fun x => decide (tN - x ≤ cfg.TIME_WINDOW_MS)).length := by
    have hkeep : (ts.filter fun x => decide (tN - x ≤ cfg.TIME_WINDOW_MS)) = ts := by
      rw [List.filter_eq_self]
      intro a ha
      have := hwin tN (by simp) a (by simp [ha])
      simp only [decide_eq_true_eq]
      omega
    rw [hkeep]
    exact hlen.ge
  obtain ⟨hb, hr, hbv⟩ := checkRequest_rate_limited_step cfg
    (processAll cfg ip ua hdrs s ts).1 ip ua hdrs tN ts hua hhdrs htr hcount
  refine ⟨(checkRequest cfg (processAll cfg ip ua hdrs s ts).1 ip ua hdrs tN).2,
    (checkRequest cfg (processAll cfg ip ua hdrs s ts).1 ip ua hdrs tN).1, ?_, hb, hr, hbv⟩
  rw [processAll_append]
  simp [processAll, hdec, hlen]

/-- Claim C2 witness: with a 2-request / 10 s window configuration,
arrivals at 0 and 1000 from a fresh IP are both admitted and the
third arrival at 2000 is denied with RATE_LIMIT, leaving the IP
blocked until 3602000. -/
theorem sliding_window_boundary_witness :
    ((processAll sampleCfg "2.2.2.2" "Mozilla/5.0" sampleHeaders emptyBotState
        [0, 1000, 2000]).2.map GateDecision.blocked) = [false, false, true] ∧
    blockView (processAll sampleCfg "2.2.2.2" "Mozilla/5.0" sampleHeaders emptyBotState
        [0, 1000, 2000]).1 "2.2.2.2" = (true, some 3602000) := by
  obtain ⟨s2, dN, heq, hb, hr, hbv⟩ := sliding_window_boundary sampleCfg "2.2.2.2"
    "Mozilla/5.0" sampleHeaders emptyBotState [0, 1000] 2000
    (by decide) (by decide) (by decide) (by decide) (by decide) rfl
  have heq2 : ([0, 1000, 2000] : List Int) = [0, 1000] ++ [2000] := by decide
  rw [heq2, heq]
  constructor
  · simp [sampleCfg, hb]
  · simpa [sampleCfg] using hbv

/-- The timestamp log the tracker stores for an IP (empty for an
untracked IP). -/
def requestsOf (s : BotState) (ip : String) : List Int :=
  ((s.ipRequestTracker ip).getD emptyIPData).requests

/-- Number of stored timestamps lying within the trailing window
ending at instant t. -/
def windowCount (cfg : Config) (l : List Int) (t : Int) : Nat :=
  (l.filter fun ts => decide (t - cfg.TIME_WINDOW_MS ≤ ts ∧ ts ≤ t)).length

/-- The invariant of claim C9: no IP's log ever holds more than
MAX_REQUESTS_PER_WINDOW timestamps inside any single trailing
window. -/
def WindowInv (cfg : Config) (s : BotState) : Prop :=
  ∀ ip t, windowCount cfg (requestsOf s ip) t ≤ cfg.MAX_REQUESTS_PER_WINDOW

/-- Filtering with a weaker predicate keeps at least as many
elements. -/
theorem length_filter_mono {α : Type} (l : List α) (p q : α → Bool)
    (h : ∀ a ∈ l, p a = true → q a = true) :
    (l.filter p).length ≤ (l.filter q).length := by
  induction l with
  | nil => simp
  | cons a tl ih =>
    have htl := ih fun b hb hpb => h b (by simp [hb]) hpb
    by_cases hpa : p a = true
    · have hqa := h a (by simp) hpa
      simp only [List.filter_cons, hpa, hqa, if_true, List.length_cons]
      omega
    · rw [Bool.not_eq_true] at hpa
      simp only [List.filter_cons, hpa, Bool.false_eq_true, if_false]
      by_cases hqa : q a = true
      · simp only [hqa, if_true, List.length_cons]
        omega
      · rw [Bool.not_eq_true] at hqa
        simp only [hqa, Bool.false_eq_true, if_false]
        exact htl

/-- The blocked-IP check never changes any IP's timestamp log. -/
theorem isIPBlocked_requestsOf (s : BotState) (ip : String) (now : Int) (j : String) :
    requestsOf (isIPBlocked s ip now).2 j = requestsOf s j := by
  cases h : s.ipRequestTracker ip with
  | none => simp [isIPBlocked, h]
  | some d =>
    by_cases hb : d.blocked = false
    · simp [isIPBlocked, h, hb]
    · cases hbu : d.blockedUntil with
      | none => simp [isIPBlocked, h, hb, hbu]
      | some bu =>
        by_cases hc : bu ≠ 0 ∧ bu ≤ now
        · by_cases hj : j = ip <;> simp [isIPBlocked, h, hb, hbu, hc, requestsOf, hj]
        · simp [isIPBlocked, h, hb, hbu, hc]

/-- blockIP never changes any IP's timestamp log. -/
theorem blockIP_requestsOf (s : BotState) (ip : String) (bu : Int) (r : String) (now : Int)
    (j : String) :
    requestsOf (blockIP s ip bu r now) j = requestsOf s j := by
  by_cases hj : j = ip
  · cases h : s.ipRequestTracker ip <;> simp [blockIP, requestsOf, h, hj, emptyIPData]
  · simp [blockIP, requestsOf, hj]

/-- Appending the current arrival and applying the 2-window prune
keeps the trailing-window census within the maximum, provided the
pre-append in-window count was still below it. -/
theorem windowCount_record_le (cfg : Config) (l : List Int) (now t : Int)
    (hcount : (l.filter fun ts => decide (now - ts ≤ cfg.TIME_WINDOW_MS)).length <
      cfg.MAX_REQUESTS_PER_WINDOW)
    (hinv : windowCount cfg l t ≤ cfg.MAX_REQUESTS_PER_WINDOW) :
    windowCount cfg
      ((l ++ [now]).filter fun ts => decide (now - cfg.TIME_WINDOW_MS * 2 < ts)) t ≤
      cfg.MAX_REQUESTS_PER_WINDOW := by
  have h1 : windowCount cfg
      ((l ++ [now]).filter fun ts => decide (now - cfg.TIME_WINDOW_MS * 2 < ts)) t ≤
      windowCount cfg (l ++ [now]) t := by
    unfold windowCount
    exact List.Sublist.length_le
      (List.Sublist.filter _ (List.filter_sublist (l ++ [now])))
  have h2 : windowCount cfg (l ++ [now]) t = windowCount cfg l t + windowCount cfg [now] t := by
    unfold windowCount
    rw [List.filter_append, List.length_append]
  by_cases hin : t - cfg.TIME_WINDOW_MS ≤ now ∧ now ≤ t
  · have h3 : windowCount cfg [now] t = 1 := by
      unfold windowCount
      rw [show List.filter (fun ts => decide (t - cfg.TIME_WINDOW_MS ≤ ts ∧ ts ≤ t)) [now] =
          [now] from by
        rw [List.filter_eq_self]
        intro a ha
        simp only [List.mem_singleton] at ha
        subst ha
        simpa using hin]
      rfl
    have h4 : windowCount cfg l t ≤
        (l.filter fun ts => decide (now - ts ≤ cfg.TIME_WINDOW_MS)).length := by
      apply length_filter_mono
      intro a _ hpa
      simp only [decide_eq_true_eq] at hpa ⊢
      omega
    omega
  · have h3 : windowCount cfg [now] t = 0 := by
      unfold windowCount
      rw [show List.filter (fun ts => decide (t - cfg.TIME_WINDOW_MS ≤ ts ∧ ts ≤ t)) [now] =
          [] from by
        rw [List.filter_eq_nil_iff]
        intro a ha
        simp only [List.mem_singleton] at ha
        subst ha
        simpa using hin]
      rfl
    omega

/-- Claim C9: the window invariant holds in the fresh state and is
preserved by every checkRequest call (so no IP log ever shows more
than MAX_REQUESTS_PER_WINDOW timestamps within one trailing window),
and every denied request leaves every IP's timestamp log unchanged —
only the allowed outcome appends its arrival. -/
theorem admitted_only_window_invariant (cfg : Config) (s : BotState) (ip ua : String)
    (hdrs : Headers) (now : Int) (hinv : WindowInv cfg s) :
    WindowInv cfg emptyBotState ∧
    WindowInv cfg (checkRequest cfg s ip ua hdrs now).2 ∧
    ((checkRequest cfg s ip ua hdrs now).1.blocked = true →
      ∀ j, requestsOf (checkRequest cfg s ip ua hdrs now).2 j = requestsOf s j) := by
  have hbase : WindowInv cfg emptyBotState := by
    intro j t
    simp [windowCount, requestsOf, emptyBotState, emptyIPData]
  have hpreq : ∀ j, requestsOf (isIPBlocked s ip now).2 j = requestsOf s j :=
    isIPBlocked_requestsOf s ip now
  have hpinv : WindowInv cfg (isIPBlocked s ip now).2 := by
    intro j t
    rw [hpreq j]
    exact hinv j t
  refine ⟨hbase, ?_, ?_⟩
  all_goals
    simp only [checkRequest]
    split_ifs with h1 h2 h3 h4
  · exact hpinv
  · intro j t
    rw [show requestsOf (flagSuspiciousIP (isIPBlocked s ip now).2 ip "BOT_USER_AGENT") j =
      requestsOf (isIPBlocked s ip now).2 j from rfl]
    exact hpinv j t
  · intro j t
    rw [show requestsOf (flagSuspiciousIP (isIPBlocked s ip now).2 ip
        ((checkSuspiciousHeaders hdrs).reason.getD "")) j =
      requestsOf (isIPBlocked s ip now).2 j from rfl]
    exact hpinv j t
  · intro j t
    rw [blockIP_requestsOf]
    exact hpinv j t
  · intro j t
    by_cases hj : j = ip
    · subst hj
      have hcount : ((requestsOf (isIPBlocked s j now).2 j).filter
          fun ts => decide (now - ts ≤ cfg.TIME_WINDOW_MS)).length <
          cfg.MAX_REQUESTS_PER_WINDOW := by
        rcases Nat.lt_or_ge ((requestsOf (isIPBlocked s j now).2 j).filter
            fun ts => decide (now - ts ≤ cfg.TIME_WINDOW_MS)).length
            cfg.MAX_REQUESTS_PER_WINDOW with hlt | hge
        · exact hlt
        · exact absurd ((checkRateLimit_exceeded_iff cfg (isIPBlocked s j now).2 j now).mpr hge)
            (by simpa using h4)
      have hreq : requestsOf (recordRequest cfg (isIPBlocked s j now).2 j now) j =
          ((requestsOf (isIPBlocked s j now).2 j ++ [now]).filter
            fun ts => decide (now - cfg.TIME_WINDOW_MS * 2 < ts)) := by
        simp [recordRequest, requestsOf]
      rw [hreq]
      exact windowCount_record_le cfg _ now t hcount (hpinv j t)
    · have hreq : requestsOf (recordRequest cfg (isIPBlocked s ip now).2 ip now) j =
          requestsOf (isIPBlocked s ip now).2 j := by
        simp [recordRequest, requestsOf, hj]
      rw [hreq]
      exact hpinv j t
  · intro _ j
    exact hpreq j
  · intro _ j
    exact hpreq j
  · intro _ j
    exact hpreq j
  · intro _ j
    rw [blockIP_requestsOf]
    exact hpreq j
  · intro hfalse
    simp at hfalse

/-- Claim C9 witness: the invariant holds after a gate call on the
fresh (invariant-satisfying) state. -/
theorem admitted_only_window_invariant_witness :
    WindowInv sampleCfg
      (checkRequest sampleCfg emptyBotState "9.9.9.9" "Mozilla/5.0" sampleHeaders 0).2 := by
  have h0 : WindowInv sampleCfg emptyBotState := by
    intro j t
    simp [windowCount, requestsOf, emptyBotState, emptyIPData]
  exact (admitted_only_window_invariant sampleCfg emptyBotState "9.9.9.9" "Mozilla/5.0"
    sampleHeaders 0 h0).2.1

/-! ### Theorems about the global mint limiter and the claim handler -/

/-- A bucket that survives the purge is at most two minutes old. -/
theorem cleanupOldMintTracking_kept (st : MintState) (now : JsDate) (k : MinuteKey)
    (d : MintBucket) (h : (cleanupOldMintTracking st now).globalMintTracker k = some d) :
    now.epochMs - d.timestamp ≤ 2 * 60 * 1000 := by
  cases h0 : st.globalMintTracker k with
  | none => simp [cleanupOldMintTracking, h0] at h
  | some d0 =>
    simp [cleanupOldMintTracking, h0] at h
    obtain ⟨h1, rfl⟩ := h
    omega

/-- The purge does not change the count read for the current minute
when the current bucket (if any) is fresh. -/
theorem cleanup_preserves_current_count (st : MintState) (now : JsDate)
    (hfresh : ∀ d, st.globalMintTracker (getCurrentMinuteKey now) = some d →
      now.epochMs - d.timestamp ≤ 2 * 60 * 1000) :
    getCurrentCount (cleanupOldMintTracking st now) now = getCurrentCount st now := by
  cases h0 : st.globalMintTracker (getCurrentMinuteKey now) with
  | none => simp [getCurrentCount, cleanupOldMintTracking, h0]
  | some d0 =>
    have hf := hfresh d0 h0
    have hf2 : ¬ (120000 : Int) < now.epochMs - d0.timestamp := by omega
    simp [getCurrentCount, cleanupOldMintTracking, h0, hf2]

/-- The second component of isGlobalRateLimitExceeded is the purged
state. -/
theorem isGlobalRateLimitExceeded_snd (st : MintState) (now : JsDate) :
    (isGlobalRateLimitExceeded st now).2 = cleanupOldMintTracking st now := by
  unfold isGlobalRateLimitExceeded
  cases h : (cleanupOldMintTracking st now).globalMintTracker (getCurrentMinuteKey now) <;>
    simp [h]

/-- recordGlobalMint increments the count read for the current minute
by exactly one (when the current bucket, if present, is fresh). -/
theorem recordGlobalMint_count (st : MintState) (now : JsDate)
    (hfresh : ∀ d, st.globalMintTracker (getCurrentMinuteKey now) = some d →
      now.epochMs - d.timestamp ≤ 2 * 60 * 1000) :
    getCurrentCount (recordGlobalMint st now) now = getCurrentCount st now + 1 := by
  cases h0 : st.globalMintTracker (getCurrentMinuteKey now) with
  | none =>
    simp [recordGlobalMint, getCurrentCount, cleanupOldMintTracking, h0]
  | some d0 =>
    have hf := hfresh d0 h0
    have hf2 : ¬ (120000 : Int) < now.epochMs - d0.timestamp := by omega
    simp [recordGlobalMint, getCurrentCount, cleanupOldMintTracking, h0, hf2]

/-- Iterating recordGlobalMint at a fixed instant adds to a fresh
current bucket one unit per call, keeping its creation stamp. -/
theorem recordN_adds (now : JsDate) :
    ∀ (n : Nat) (st : MintState) (c : Nat) (τ : Int),
      st.globalMintTracker (getCurrentMinuteKey now) = some ⟨c, τ⟩ →
      now.epochMs - τ ≤ 2 * 60 * 1000 →
      (recordN n st now).globalMintTracker (getCurrentMinuteKey now) = some ⟨c + n, τ⟩ := by
  intro n
  induction n with
  | zero => intro st c τ h _; simpa [recordN] using h
  | succ m ih =>
    intro st c τ h hτ
    have hf2 : ¬ (120000 : Int) < now.epochMs - τ := by omega
    have hstep : (recordGlobalMint st now).globalMintTracker (getCurrentMinuteKey now) =
        some ⟨c + 1, τ⟩ := by
      simp [recordGlobalMint, cleanupOldMintTracking, h, hf2]
    have := ih (recordGlobalMint st now) (c + 1) τ hstep hτ
    rw [show recordN (m + 1) st now = recordN m (recordGlobalMint st now) now from rfl, this,
      show c + 1 + m = c + (m + 1) from by omega]

/-- recordN never creates a bucket for a different minute key. -/
theorem recordN_other_key_none (now : JsDate) (k : MinuteKey)
    (hk : k ≠ getCurrentMinuteKey now) :
    ∀ (n : Nat) (st : MintState), st.globalMintTracker k = none →
      (recordN n st now).globalMintTracker k = none := by
  intro n
  induction n with
  | zero => intro st h; simpa [recordN] using h
  | succ m ih =>
    intro st h
    have hstep : (recordGlobalMint st now).globalMintTracker k = none := by
      simp [recordGlobalMint, cleanupOldMintTracking, hk, h]
    exact ih (recordGlobalMint st now) hstep

/-- One recordGlobalMint leaves a fresh current bucket with a positive
count. -/
theorem recordGlobalMint_bucket (st : MintState) (now : JsDate) :
    ∃ c τ, (recordGlobalMint st now).globalMintTracker (getCurrentMinuteKey now) =
        some ⟨c, τ⟩ ∧ 1 ≤ c ∧ now.epochMs - τ ≤ 2 * 60 * 1000 := by
  cases h : (cleanupOldMintTracking st now).globalMintTracker (getCurrentMinuteKey now) with
  | none =>
    refine ⟨1, now.epochMs, ?_, le_refl 1, by omega⟩
    simp [recordGlobalMint, h]
  | some d =>
    refine ⟨d.count + 1, d.timestamp, ?_, by omega,
      cleanupOldMintTracking_kept st now _ d h⟩
    simp [recordGlobalMint, h]

/-- Claim C4: the global limiter is exceeded exactly when the current
calendar-minute bucket counts at least GLOBAL_TOKENS_PER_MINUTE = 20
(an absent bucket counts 0, hence not exceeded); recording 20 mints
within one minute makes it exceeded, and at a clock reading in a
different (fresh) minute the count reads 0 and the limiter is not
exceeded. -/
theorem global_mint_bucket_spec (st : MintState) (now now2 : JsDate)
    (hfresh : ∀ d, st.globalMintTracker (getCurrentMinuteKey now) = some d →
      now.epochMs - d.timestamp ≤ 2 * 60 * 1000)
    (hkey : getCurrentMinuteKey now2 ≠ getCurrentMinuteKey now)
    (hnone : st.globalMintTracker (getCurrentMinuteKey now2) = none) :
    (isGlobalRateLimitExceeded st now).1 =
      decide (GLOBAL_TOKENS_PER_MINUTE ≤ getCurrentCount st now) ∧
    (isGlobalRateLimitExceeded (recordN 20 st now) now).1 = true ∧
    getCurrentCount (recordN 20 st now) now2 = 0 ∧
    (isGlobalRateLimitExceeded (recordN 20 st now) now2).1 = false := by
  refine ⟨?_, ?_, ?_, ?_⟩
  · cases h0 : st.globalMintTracker (getCurrentMinuteKey now) with
    | none =>
      simp [isGlobalRateLimitExceeded, cleanupOldMintTracking, getCurrentCount, h0,
        GLOBAL_TOKENS_PER_MINUTE]
    | some d0 =>
      have hf := hfresh d0 h0
      have hf2 : ¬ (120000 : Int) < now.epochMs - d0.timestamp := by omega
      simp [isGlobalRateLimitExceeded, cleanupOldMintTracking, getCurrentCount, h0, hf2,
        GLOBAL_TOKENS_PER_MINUTE]
  · obtain ⟨c, τ, hb, hc, hτ⟩ := recordGlobalMint_bucket st now
    have h19 := recordN_adds now 19 (recordGlobalMint st now) c τ hb hτ
    have hf2 : ¬ (120000 : Int) < now.epochMs - τ := by omega
    rw [show recordN 20 st now = recordN 19 (recordGlobalMint st now) now from rfl]
    simp [isGlobalRateLimitExceeded, cleanupOldMintTracking, h19, hf2,
      GLOBAL_TOKENS_PER_MINUTE]
    omega
  · have h := recordN_other_key_none now (getCurrentMinuteKey now2) hkey 20 st hnone
    simp [getCurrentCount, h]
  · have h := recordN_other_key_none now (getCurrentMinuteKey now2) hkey 20 st hnone
    simp [isGlobalRateLimitExceeded, cleanupOldMintTracking, h]

/-- Clock reading inside minute 10:30 of 2026-10-11 (month is the
JavaScript 0-based value). -/
def d1 : JsDate := ⟨0, 2026, 9, 11, 10, 30⟩

/-- Clock reading one minute later, inside minute 10:31. -/
def d2 : JsDate := ⟨60000, 2026, 9, 11, 10, 31⟩

/-- Claim C4 witness: from an empty tracker, 20 mints recorded inside
one minute make the limiter exceeded, and the next minute reads count
0. -/
theorem global_mint_bucket_spec_witness :
    (isGlobalRateLimitExceeded (recordN 20 emptyMintState d1) d1).1 = true ∧
    getCurrentCount (recordN 20 emptyMintState d1) d2 = 0 ∧
    (isGlobalRateLimitExceeded (recordN 20 emptyMintState d1) d2).1 = false := by
  have h := global_mint_bucket_spec emptyMintState d1 d2
    (by intro d hd; simp [emptyMintState] at hd)
    (by decide) rfl
  exact ⟨h.2.1, h.2.2.1, h.2.2.2⟩

/-- Claim C3: the claim handler's mint phase consults the global
limiter first and answers 429 without attempting the mint when it is
exceeded; when it is not exceeded the mint is attempted, and a failed
(throwing) mint leaves the current minute's count unchanged, while
only a successful mint reaches recordGlobalMint and increments it —
the global budget counts successful mints, not attempts. -/
theorem claim_mint_phase_spec (st : MintState) (now : JsDate)
    (mintOutcome : Except String String)
    (hfresh : ∀ d, st.globalMintTracker (getCurrentMinuteKey now) = some d →
      now.epochMs - d.timestamp ≤ 2 * 60 * 1000) :
    if (isGlobalRateLimitExceeded st now).1 then
      claimTokenMintPhase st now mintOutcome =
        ⟨429, false, (isGlobalRateLimitExceeded st now).2⟩
    else
      (claimTokenMintPhase st now mintOutcome).mintAttempted = true ∧
      match mintOutcome with
      | Except.error _ =>
        (claimTokenMintPhase st now mintOutcome).status = 500 ∧
        getCurrentCount (claimTokenMintPhase st now mintOutcome).finalState now =
          getCurrentCount st now
      | Except.ok _ =>
        (claimTokenMintPhase st now mintOutcome).status = 200 ∧
        (claimTokenMintPhase st now mintOutcome).finalState =
          recordGlobalMint (isGlobalRateLimitExceeded st now).2 now ∧
        getCurrentCount (claimTokenMintPhase st now mintOutcome).finalState now =
          getCurrentCount st now + 1 := by
  have hfresh2 : ∀ d,
      (cleanupOldMintTracking st now).globalMintTracker (getCurrentMinuteKey now) = some d →
      now.epochMs - d.timestamp ≤ 2 * 60 * 1000 :=
    fun d hd => cleanupOldMintTracking_kept st now _ d hd
  split_ifs with hex
  · simp [claimTokenMintPhase, hex]
  · cases mintOutcome with
    | error e =>
      refine ⟨by simp [claimTokenMintPhase, hex], by simp [claimTokenMintPhase, hex], ?_⟩
      have : (claimTokenMintPhase st now (Except.error e)).finalState =
          (isGlobalRateLimitExceeded st now).2 := by
        simp [claimTokenMintPhase, hex]
      rw [this, isGlobalRateLimitExceeded_snd]
      exact cleanup_preserves_current_count st now hfresh
    | ok r =>
      refine ⟨by simp [claimTokenMintPhase, hex], by simp [claimTokenMintPhase, hex],
        by simp [claimTokenMintPhase, hex], ?_⟩
      have hst : (claimTokenMintPhase st now (Except.ok r)).finalState =
          recordGlobalMint (cleanupOldMintTracking st now) now := by
        simp [claimTokenMintPhase, hex, isGlobalRateLimitExceeded_snd]
      rw [hst, recordGlobalMint_count _ _ hfresh2, cleanup_preserves_current_count st now hfresh]

/-- Claim C3 witness: from an empty tracker (limiter not exceeded), a
failing mint answers 500 and leaves the current minute's count at 0,
and a succeeding mint answers 200 and raises it to 1. -/
theorem claim_mint_phase_spec_witness :
    (claimTokenMintPhase emptyMintState d1 (Except.error "boom")).status = 500 ∧
    getCurrentCount (claimTokenMintPhase emptyMintState d1 (Except.error "boom")).finalState d1 = 0 ∧
    (claimTokenMintPhase emptyMintState d1 (Except.ok "tx")).status = 200 ∧
    getCurrentCount (claimTokenMintPhase emptyMintState d1 (Except.ok "tx")).finalState d1 = 1 := by
  have hf : ∀ d, emptyMintState.globalMintTracker (getCurrentMinuteKey d1) = some d →
      d1.epochMs - d.timestamp ≤ 2 * 60 * 1000 := by
    intro d hd; simp [emptyMintState] at hd
  have h1 := claim_mint_phase_spec emptyMintState d1 (Except.error "boom") hf
  have h2 := claim_mint_phase_spec emptyMintState d1 (Except.ok "tx") hf
  have hex : (isGlobalRateLimitExceeded emptyMintState d1).1 = false := rfl
  rw [hex] at h1 h2
  simp only [Bool.false_eq_true, if_false] at h1 h2
  exact ⟨h1.2.1, h1.2.2, h2.2.1, h2.2.2.2⟩

end OrdiBird
